import Mathlib

/-!
Verification development for the arcade-shooter runtime core
(boss encounter state machine, collision resolution, spawn director,
collectibles). Each JavaScript method relevant to the verified
properties is shallowly embedded as a pure Lean function: mutable
sprite state becomes a record that operations thread explicitly,
JS numbers become rationals, randomness becomes explicit oracle
parameters, and event-bus emissions become returned event lists.
Visual-only effects (tweens, tints, screen shake, floating text) are
out of scope per the design document and are not represented.
-/

namespace SpaceGame

/-- The four boss attack kinds appearing in the attack registry. -/
inductive Attack where
  | spray
  | aimed
  | summon
  | ring
deriving DecidableEq, Repr

/-- Boss runtime state: the fields of the `Boss` sprite that the attack
selection, damage, phase and death logic read or write.  Times and
cooldowns are in milliseconds. -/
structure Boss where
  bossType : String
  bossName : String
  maxHealth : ℚ
  health : ℚ
  points : ℚ
  phase2Threshold : ℚ
  phase3Threshold : ℚ
  currentPhase : Nat
  sprayCooldown : ℚ
  aimedCooldown : ℚ
  summonCooldown : ℚ
  ringCooldown : ℚ
  phase3SpeedMult : ℚ
  lastSprayTime : ℚ
  lastAimedTime : ℚ
  lastSummonTime : ℚ
  lastRingTime : ℚ
  attacks : List Attack
  phase3Attacks : List Attack
  bulletGroup : Bool
  isAttacking : Bool
  isDying : Bool
deriving DecidableEq, Repr

/-- `GameConfig.BOSS` defaults used by the `Boss` constructor. -/
def BOSS_MAX_HEALTH : ℚ := 300

def BOSS_POINTS : ℚ := 5000

def BOSS_COLLISION_DAMAGE : ℚ := 50

def BOSS_SPEED : ℚ := 80

def PHASE_2_THRESHOLD : ℚ := 0.66

def PHASE_3_THRESHOLD : ℚ := 0.33

def SPRAY_COOLDOWN : ℚ := 2000

def AIMED_COOLDOWN : ℚ := 1500

def SUMMON_COOLDOWN : ℚ := 5000

def RING_COOLDOWN : ℚ := 3000

def PHASE_3_SPEED_MULT : ℚ := 0.5

/-- One entry of the `GameConfig.BOSS.TYPES` registry; `Option` fields are
the keys a type entry may omit, in which case the constructor falls back
to the `GameConfig.BOSS` default (the JS `tc.x || cfg.X` pattern). -/
structure BossTypeCfg where
  name : String
  health : Option ℚ
  points : Option ℚ
  speed : Option ℚ
  attacks : Option (List Attack)
  phase3Attacks : Option (List Attack)
  sprayCooldownMult : Option ℚ
  aimedCooldownMult : Option ℚ
  summonCooldownMult : Option ℚ
  ringCooldownMult : Option ℚ
deriving DecidableEq, Repr

/-- `GameConfig.BOSS.TYPES.megaship`. -/
def megashipCfg : BossTypeCfg :=
  { name := "Megaship Alpha"
    health := some 300
    points := some 5000
    speed := some 80
    attacks := some [Attack.spray, Attack.aimed, Attack.summon]
    phase3Attacks := some [Attack.spray, Attack.aimed, Attack.ring, Attack.summon]
    sprayCooldownMult := none
    aimedCooldownMult := none
    summonCooldownMult := none
    ringCooldownMult := none }

/-- `GameConfig.BOSS.TYPES.destroyer`. -/
def destroyerCfg : BossTypeCfg :=
  { name := "Destroyer Class"
    health := some 400
    points := some 7500
    speed := some 60
    attacks := some [Attack.spray, Attack.ring]
    phase3Attacks := some [Attack.spray, Attack.ring, Attack.aimed]
    sprayCooldownMult := some 0.8
    aimedCooldownMult := none
    summonCooldownMult := none
    ringCooldownMult := none }

/-- `GameConfig.BOSS.TYPES.carrier`. -/
def carrierCfg : BossTypeCfg :=
  { name := "Carrier Behemoth"
    health := some 500
    points := some 10000
    speed := some 40
    attacks := some [Attack.aimed, Attack.summon]
    phase3Attacks := some [Attack.aimed, Attack.summon, Attack.spray]
    sprayCooldownMult := none
    aimedCooldownMult := none
    summonCooldownMult := some 0.6
    ringCooldownMult := none }

/-- The `GameConfig.BOSS.TYPES` registry as an association list. -/
def bossTypes : List (String × BossTypeCfg) :=
  [("megaship", megashipCfg), ("destroyer", destroyerCfg), ("carrier", carrierCfg)]

/-- `Boss.getTypeConfig`: registry lookup by key. -/
def lookupBossType (ty : String) : Option BossTypeCfg :=
  (bossTypes.find? (fun p => p.1 == ty)).map Prod.snd

/-- The `Boss` constructor: resolves the type config (warning and fallback
to megaship on an unknown key) and initialises every stat field.  The
returned list holds the warnings logged during construction.  Scene and
physics wiring is out of scope. -/
def mkBoss (ty : String) : Boss × List String :=
  let typeConfig := lookupBossType ty
  let warnings :=
    if typeConfig.isNone then
      ["Unknown boss type: " ++ ty ++ ", defaulting to megaship"]
    else []
  let ty2 := if typeConfig.isNone then "megaship" else ty
  let tc := typeConfig.getD megashipCfg
  let hp := tc.health.getD BOSS_MAX_HEALTH
  ({ bossType := ty2
     bossName := tc.name
     maxHealth := hp
     health := hp
     points := tc.points.getD BOSS_POINTS
     phase2Threshold := PHASE_2_THRESHOLD
     phase3Threshold := PHASE_3_THRESHOLD
     currentPhase := 1
     sprayCooldown := SPRAY_COOLDOWN * (tc.sprayCooldownMult.getD 1)
     aimedCooldown := AIMED_COOLDOWN * (tc.aimedCooldownMult.getD 1)
     summonCooldown := SUMMON_COOLDOWN * (tc.summonCooldownMult.getD 1)
     ringCooldown := RING_COOLDOWN * (tc.ringCooldownMult.getD 1)
     phase3SpeedMult := PHASE_3_SPEED_MULT
     lastSprayTime := 0
     lastAimedTime := 0
     lastSummonTime := 0
     lastRingTime := 0
     attacks := tc.attacks.getD [Attack.spray, Attack.aimed]
     phase3Attacks := tc.phase3Attacks.getD [Attack.spray, Attack.aimed, Attack.ring]
     bulletGroup := false
     isAttacking := false
     isDying := false }, warnings)

/-- `Boss.getCurrentPhase`: derive the phase (1, 2 or 3) from the current
health percentage and the two thresholds. -/
def getCurrentPhase (b : Boss) : Nat :=
  let healthPercent : ℚ := b.health / b.maxHealth
  if healthPercent ≤ b.phase3Threshold then 3
  else if healthPercent ≤ b.phase2Threshold then 2
  else 1

/-- `Boss.takeDamage`: no-op returning `false` while dying; otherwise
subtract the amount, recompute the phase, and trigger the death sequence
(`die` sets `isDying`) when health drops to 0 or below.  The boolean is
the JS return value (`true` iff the boss died on this call). -/
def takeDamage (b : Boss) (amount : ℚ) : Boss × Bool :=
  if b.isDying then (b, false)
  else
    let b1 := { b with health := b.health - amount }
    let newPhase := getCurrentPhase b1
    let b2 :=
      if newPhase ≠ b1.currentPhase then { b1 with currentPhase := newPhase } else b1
    if b2.health ≤ 0 then ({ b2 with isDying := true }, true)
    else (b2, false)

/-- Run a sequence of `takeDamage` calls, counting how many of them
returned `true` (i.e. how many times the death sequence — which
schedules the single `bossDefeated` emission — was started). -/
def runTakeDamage (b : Boss) : List ℚ → Boss × Nat
  | [] => (b, 0)
  | a :: rest =>
    let r := takeDamage b a
    let tail := runTakeDamage r.1 rest
    (tail.1, (if r.2 then 1 else 0) + tail.2)

/-- `Boss.hasAttack`: membership of an attack in the current phase's
attack list (the phase-3 list exactly when `currentPhase === 3`). -/
def hasAttack (b : Boss) (a : Attack) : Bool :=
  let attackList := if b.currentPhase = 3 then b.phase3Attacks else b.attacks
  attackList.contains a

/-- The synchronous boss-state effect of an attack strategy's `execute`:
spray and ring set `isAttacking`; aimed sets it only when the player is
present and active (otherwise it returns before doing anything); summon
only emits a `bossSummon` event.  Bullet spawning and tweens are
deferred/visual and out of scope. -/
def executeAttack (b : Boss) (a : Attack) (playerActive : Bool) : Boss :=
  match a with
  | Attack.spray => { b with isAttacking := true }
  | Attack.aimed => if playerActive then { b with isAttacking := true } else b
  | Attack.summon => b
  | Attack.ring => { b with isAttacking := true }

/-- `Boss.updateAttacks`: the per-tick attack selection.  Mirrors the
source's four sequential guarded blocks, each returning immediately after
firing.  The optional result reports which attack fired this tick. -/
def updateAttacks (b : Boss) (time : ℚ) (playerActive : Bool) : Boss × Option Attack :=
  if !b.bulletGroup || b.isAttacking then (b, none)
  else
    let cooldownMult : ℚ := if b.currentPhase = 3 then b.phase3SpeedMult else 1
    if hasAttack b Attack.spray && decide (b.sprayCooldown * cooldownMult ≤ time - b.lastSprayTime) then
      ({ executeAttack b Attack.spray playerActive with lastSprayTime := time }, some Attack.spray)
    else if hasAttack b Attack.aimed && decide (b.aimedCooldown * cooldownMult ≤ time - b.lastAimedTime) then
      ({ executeAttack b Attack.aimed playerActive with lastAimedTime := time }, some Attack.aimed)
    else if decide (2 ≤ b.currentPhase) && hasAttack b Attack.summon && decide (b.summonCooldown * cooldownMult ≤ time - b.lastSummonTime) then
      ({ executeAttack b Attack.summon playerActive with lastSummonTime := time }, some Attack.summon)
    else if hasAttack b Attack.ring && decide (b.ringCooldown * cooldownMult ≤ time - b.lastRingTime) then
      ({ executeAttack b Attack.ring playerActive with lastRingTime := time }, some Attack.ring)
    else (b, none)

/-- The last-fired timestamp of a given attack. -/
def lastTimeOf (b : Boss) (a : Attack) : ℚ :=
  match a with
  | Attack.spray => b.lastSprayTime
  | Attack.aimed => b.lastAimedTime
  | Attack.summon => b.lastSummonTime
  | Attack.ring => b.lastRingTime

/-- The (type-multiplier-scaled) cooldown of a given attack. -/
def cooldownOf (b : Boss) (a : Attack) : ℚ :=
  match a with
  | Attack.spray => b.sprayCooldown
  | Attack.aimed => b.aimedCooldown
  | Attack.summon => b.summonCooldown
  | Attack.ring => b.ringCooldown

/-- Modelled from the spec: an attack is ready this tick when it is
present in the current phase's attack list (summon additionally requires
phase ≥ 2) and its individual cooldown — scaled by the phase-3 speed
multiplier when in phase 3 — has elapsed since it last fired. -/
def attackReady (b : Boss) (time : ℚ) (a : Attack) : Bool :=
  let cooldownMult : ℚ := if b.currentPhase = 3 then b.phase3SpeedMult else 1
  let phaseOk := match a with
    | Attack.summon => decide (2 ≤ b.currentPhase)
    | _ => true
  hasAttack b a && phaseOk && decide (cooldownOf b a * cooldownMult ≤ time - lastTimeOf b a)

/-- Modelled from the spec: the fixed priority order in which the attack
list is scanned each tick. -/
def priorityOrder : List Attack :=
  [Attack.spray, Attack.aimed, Attack.summon, Attack.ring]

/-- Modelled from the spec: the attack that fires this tick is the first
ready attack in the fixed priority order, if any. -/
def specAttackSelection (b : Boss) (time : ℚ) : Option Attack :=
  priorityOrder.find? (attackReady b time)

/-! ## Enemy data model (`Enemy.js` and `GameConfig.ENEMY`) -/

/-- An enemy loot table's credit drop range. -/
structure CreditRange where
  lo : Int
  hi : Int
deriving DecidableEq, Repr

/-- One weighted entry of an enemy's power-up drop table. -/
structure DropEntry where
  item : String
  chance : ℚ
deriving DecidableEq, Repr

/-- An enemy type's loot table (`credits` range plus weighted drop table). -/
structure Loot where
  credits : Option CreditRange
  dropTable : List DropEntry
deriving DecidableEq, Repr

/-- One entry of the `GameConfig.ENEMY.TYPES` registry (the fields the
embedded operations read; movement/visual tuning fields are out of
scope). -/
structure EnemyTypeCfg where
  frameId : String
  health : ℚ
  speed : ℚ
  points : ℚ
  fireRate : ℚ
  damage : Option ℚ
  loot : Option Loot
deriving DecidableEq, Repr

/-- `GameConfig.ENEMY.DEFAULT_DAMAGE`. -/
def ENEMY_DEFAULT_DAMAGE : ℚ := 10

/-- `GameConfig.ENEMY.TYPES.fighter`. -/
def fighterCfg : EnemyTypeCfg :=
  { frameId := "1", health := 1, speed := 150, points := 100, fireRate := 2000
    damage := some 10
    loot := some
      { credits := some { lo := 5, hi := 15 }
        dropTable := [{ item := "health", chance := 0.6 },
                      { item := "weapon", chance := 0.3 },
                      { item := "speed", chance := 0.1 }] } }

/-- `GameConfig.ENEMY.TYPES.heavy`. -/
def heavyCfg : EnemyTypeCfg :=
  { frameId := "2", health := 3, speed := 80, points := 250, fireRate := 1500
    damage := some 25
    loot := some
      { credits := some { lo := 15, hi := 40 }
        dropTable := [{ item := "health", chance := 0.4 },
                      { item := "weapon", chance := 0.4 },
                      { item := "shield", chance := 0.2 }] } }

/-- `GameConfig.ENEMY.TYPES.scout`. -/
def scoutCfg : EnemyTypeCfg :=
  { frameId := "1", health := 1, speed := 200, points := 150, fireRate := 3000
    damage := some 10
    loot := some
      { credits := some { lo := 10, hi := 25 }
        dropTable := [{ item := "speed", chance := 0.5 },
                      { item := "health", chance := 0.5 }] } }

/-- `GameConfig.ENEMY.TYPES.bomber`. -/
def bomberCfg : EnemyTypeCfg :=
  { frameId := "2", health := 2, speed := 120, points := 200, fireRate := 2500
    damage := some 35
    loot := some
      { credits := some { lo := 20, hi := 50 }
        dropTable := [{ item := "weapon", chance := 0.5 },
                      { item := "shield", chance := 0.3 },
                      { item := "health", chance := 0.2 }] } }

/-- The `GameConfig.ENEMY.TYPES` registry as an association list. -/
def enemyTypes : List (String × EnemyTypeCfg) :=
  [("fighter", fighterCfg), ("heavy", heavyCfg), ("scout", scoutCfg), ("bomber", bomberCfg)]

/-- `Enemy.getTypeConfig`: registry lookup by key. -/
def lookupEnemyType (ty : String) : Option EnemyTypeCfg :=
  (enemyTypes.find? (fun p => p.1 == ty)).map Prod.snd

/-- Enemy runtime state: the fields of the `Enemy` sprite read or written
by the embedded operations. -/
structure EnemyS where
  enemyType : String
  health : ℚ
  speed : ℚ
  points : ℚ
  fireRate : ℚ
  damage : ℚ
  loot : Option Loot
deriving DecidableEq, Repr

/-- The `Enemy` constructor: resolves the type config (warning and
fallback to fighter on an unknown key) and initialises the stat fields.
The returned list holds the warnings logged during construction. -/
def mkEnemy (ty : String) : EnemyS × List String :=
  let typeConfig := lookupEnemyType ty
  let warnings :=
    if typeConfig.isNone then
      ["Unknown enemy type: " ++ ty ++ ", defaulting to fighter"]
    else []
  let ty2 := if typeConfig.isNone then "fighter" else ty
  let config := typeConfig.getD fighterCfg
  ({ enemyType := ty2
     health := config.health
     speed := config.speed
     points := config.points
     fireRate := config.fireRate
     damage := config.damage.getD ENEMY_DEFAULT_DAMAGE
     loot := config.loot }, warnings)

/-- `Enemy.takeDamage`: subtract damage, report destruction at 0 or
below. -/
def EnemyS.takeDamage (e : EnemyS) (damage : ℚ) : EnemyS × Bool :=
  let e2 := { e with health := e.health - damage }
  if e2.health ≤ 0 then (e2, true) else (e2, false)

/-- `Enemy.getLoot`. -/
def EnemyS.getLoot (e : EnemyS) : Option Loot :=
  e.loot

/-- `Enemy.getCollisionDamage`. -/
def EnemyS.getCollisionDamage (e : EnemyS) : ℚ :=
  e.damage

/-! ## Player, bullets and semantic events -/

/-- Player runtime state: the fields the collision handlers read or
write (`Player.js`). -/
structure Player where
  health : ℚ
  active : Bool
  isInvincible : Bool
deriving DecidableEq, Repr

/-- `Player.takeDamage`: clamp health at 0 and return `true` iff the
player is still alive afterwards. -/
def Player.takeDamage (p : Player) (amount : ℚ) : Player × Bool :=
  let p2 := { p with health := max 0 (p.health - amount) }
  (p2, decide (0 < p2.health))

/-- `Player.makeInvincible`: set the invincibility flag (the expiry timer
is a scene-scheduled callback, out of scope). -/
def Player.makeInvincible (p : Player) : Player :=
  { p with isInvincible := true }

/-- A projectile's pooled sprite state (active/visible flags plus the
kinematic fields the handlers could touch). -/
structure BulletS where
  active : Bool
  visible : Bool
  x : ℚ
  y : ℚ
  vx : ℚ
  vy : ℚ
deriving DecidableEq, Repr

/-- Semantic events emitted on the scene event bus by the embedded
handlers (explosion coordinates are visual-only and omitted). -/
inductive Event where
  | loseLife
  | playExplosion
  | addScore (points : ℚ)
  | enemyKilled
  | addCredits (value : Int)
deriving DecidableEq, Repr

/-! ## Randomness oracles -/

/-- `Phaser.Math.Between(lo, hi)`: a uniform integer draw from
`[lo, hi]`, modelled by reducing an arbitrary natural seed modulo the
size of the range. -/
def between (lo hi : Int) (r : Nat) : Int :=
  lo + ((r % (hi - lo + 1).toNat : Nat) : Int)

/-- `Phaser.Math.Between` on naturals (used for formation ship counts). -/
def betweenNat (lo hi : Nat) (r : Nat) : Nat :=
  lo + r % (hi - lo + 1)

/-! ## CollisionManager handlers -/

/-- `GameConfig.POWER_UP.DROP_CHANCE`. -/
def DROP_CHANCE : ℚ := 0.18

/-- The cumulative weighted pick over a drop table
(`CollisionManager.trySpawnPowerUp`'s loop): the first entry whose
cumulative chance reaches the roll wins. -/
def pickWeighted : List DropEntry → ℚ → ℚ → Option String
  | [], _, _ => none
  | d :: rest, roll, cumulative =>
    if roll ≤ cumulative + d.chance then some d.item
    else pickWeighted rest roll (cumulative + d.chance)

/-- `CollisionManager.trySpawnPowerUp`: global drop-chance roll, pool
availability, then the enemy's weighted drop table (first entry as
fallback) or a uniform pick over all power-up types.  Returns the spawned
power-up type, if any. -/
def trySpawnPowerUp (loot : Option Loot) (rDrop : ℚ) (poolOk : Bool) (roll : ℚ)
    (fallbackPick : String) : Option String :=
  if DROP_CHANCE < rDrop then none
  else if !poolOk then none
  else
    match loot with
    | some l =>
      match l.dropTable with
      | [] => some fallbackPick
      | d0 :: _ => some ((pickWeighted l.dropTable roll 0).getD d0.item)
    | none => some fallbackPick

/-- `CollisionManager.spawnCoins`: draw the coin's credit value uniformly
from the enemy's credit range; the coin is spawned only when the pool has
a free slot. -/
def spawnCoins (credits : CreditRange) (rCoin : Nat) (coinPoolOk : Bool) : Option Int :=
  let value := between credits.lo credits.hi rCoin
  if coinPoolOk then some value else none

/-- The outcome of `CollisionManager.bulletHitEnemy`. -/
structure BulletHitOutcome where
  bullet : BulletS
  enemy : EnemyS
  killed : Bool
  events : List Event
  coin : Option Int
  powerUp : Option String
deriving DecidableEq, Repr

/-- `CollisionManager.bulletHitEnemy`: deactivate the bullet, emit the
explosion, apply 1 damage; on a kill emit `addScore` with the enemy's
point value and `enemyKilled`, then roll loot (coins from the credit
range, then the independent power-up roll). -/
def bulletHitEnemy (blt : BulletS) (e : EnemyS) (rCoin : Nat) (coinPoolOk : Bool)
    (rDrop : ℚ) (puPoolOk : Bool) (roll : ℚ) (fallbackPick : String) : BulletHitOutcome :=
  let blt2 := { blt with active := false, visible := false }
  let r := e.takeDamage 1
  if r.2 then
    let loot := r.1.getLoot
    let coin :=
      match loot with
      | some l =>
        match l.credits with
        | some cr => spawnCoins cr rCoin coinPoolOk
        | none => none
      | none => none
    { bullet := blt2, enemy := r.1, killed := true
      events := [Event.playExplosion, Event.addScore e.points, Event.enemyKilled]
      coin := coin
      powerUp := trySpawnPowerUp loot rDrop puPoolOk roll fallbackPick }
  else
    { bullet := blt2, enemy := r.1, killed := false
      events := [Event.playExplosion], coin := none, powerUp := none }

/-- `CollisionManager.enemyBulletHitPlayer`: no-op while the player is
invincible (returning before the bullet is touched); otherwise consume
the bullet, apply 10 damage, and emit `loseLife` when the player does not
survive. -/
def enemyBulletHitPlayer (p : Player) (blt : BulletS) : Player × BulletS × List Event :=
  if p.isInvincible then (p, blt, [])
  else
    let blt2 := { blt with active := false, visible := false }
    let r := p.takeDamage 10
    if r.2 then (r.1, blt2, []) else (r.1, blt2, [Event.loseLife])

/-- `CollisionManager.enemyHitPlayer`: no-op while invincible; otherwise
emit the explosion, destroy the enemy (the returned flag), apply the
enemy's configured collision damage, and emit `loseLife` when the player
does not survive. -/
def enemyHitPlayer (p : Player) (e : EnemyS) : Player × List Event × Bool :=
  if p.isInvincible then (p, [], false)
  else
    let damage := e.getCollisionDamage
    let r := p.takeDamage damage
    if r.2 then (r.1, [Event.playExplosion], true)
    else (r.1, [Event.playExplosion, Event.loseLife], true)

/-! ## Mine (`Mine.js`) -/

/-- Mine runtime state. -/
structure MineS where
  health : ℚ
  damage : ℚ
  points : ℚ
  proximityRadius : ℚ
  explosionRadiusMultiplier : ℚ
deriving DecidableEq, Repr

/-- `GameConfig.MINE` values. -/
def MINE_HEALTH : ℚ := 2

def MINE_DAMAGE : ℚ := 30

def MINE_POINTS : ℚ := 50

def MINE_PROXIMITY_RADIUS : ℚ := 80

def MINE_EXPLOSION_RADIUS_MULTIPLIER : ℚ := 1.5

/-- A mine as initialised by the `Mine` constructor from `GameConfig.MINE`. -/
def mkMine : MineS :=
  { health := MINE_HEALTH
    damage := MINE_DAMAGE
    points := MINE_POINTS
    proximityRadius := MINE_PROXIMITY_RADIUS
    explosionRadiusMultiplier := MINE_EXPLOSION_RADIUS_MULTIPLIER }

/-- `Mine.explode`: play the explosion, add the mine's points to the
score, then — only if the player is active, not invincible and within the
blast radius — apply the mine's damage, granting brief invincibility on
survival and emitting `loseLife` otherwise.  `dist` is the distance
between mine and player; the mine is destroyed afterwards. -/
def MineS.explode (m : MineS) (p : Player) (dist : ℚ) (score : ℚ) :
    ℚ × Player × List Event :=
  let score2 := score + m.points
  if p.active && !p.isInvincible &&
      decide (dist < m.proximityRadius * m.explosionRadiusMultiplier) then
    let r := p.takeDamage m.damage
    if r.2 then (score2, r.1.makeInvincible, [Event.playExplosion])
    else (score2, r.1, [Event.playExplosion, Event.loseLife])
  else (score2, p, [Event.playExplosion])

/-- `Mine.takeDamage`: subtract the damage and explode when health
reaches 0; the boolean reports whether the mine exploded (was
destroyed). -/
def MineS.takeDamage (m : MineS) (amount : ℚ) (p : Player) (dist : ℚ) (score : ℚ) :
    ℚ × Player × List Event × Bool :=
  let m2 := { m with health := m.health - amount }
  if m2.health ≤ 0 then
    let r := m2.explode p dist score
    (r.1, r.2.1, r.2.2, true)
  else (score, p, [], false)

/-- The proximity trigger in `Mine.preUpdate`: when the player is active
and within the proximity radius, the mine explodes. -/
def mineProximityTick (m : MineS) (p : Player) (dist : ℚ) (score : ℚ) :
    ℚ × Player × List Event × Bool :=
  if p.active && decide (dist < m.proximityRadius) then
    let r := m.explode p dist score
    (r.1, r.2.1, r.2.2, true)
  else (score, p, [], false)

/-- `CollisionManager.mineHitPlayer`: gated on player invincibility, then
the mine explodes on direct contact. -/
def mineHitPlayer (p : Player) (m : MineS) (dist : ℚ) (score : ℚ) :
    ℚ × Player × List Event :=
  if p.isInvincible then (score, p, [])
  else m.explode p dist score

/-- `CollisionManager.bossHitPlayer`: gated on player invincibility and on
the boss's dying flag; otherwise apply the heavy collision damage, emit
`loseLife` on death, and grant 1000 ms of invincibility on survival. -/
def bossHitPlayer (p : Player) (b : Boss) : Player × List Event :=
  if p.isInvincible then (p, [])
  else if b.isDying then (p, [])
  else
    let r := p.takeDamage BOSS_COLLISION_DAMAGE
    if r.2 then (r.1.makeInvincible, []) else (r.1, [Event.loseLife])

/-! ## Collectibles (`PowerUp.js`, `Coin.js`) -/

/-- The three power-up types of the type registry used by
`PowerUp.collect`. -/
inductive PowerUpKind where
  | health
  | weapon
  | speed
deriving DecidableEq, Repr

/-- Power-up pooled sprite state; `ptype` is `none` until `spawn` assigns
a type. -/
structure PowerUpS where
  active : Bool
  ptype : Option PowerUpKind
deriving DecidableEq, Repr

/-- The player-mutating calls `PowerUp.collect` can make, reified. -/
inductive PUEffect where
  | heal (amount : ℚ)
  | weaponUp
  | speedBoost (mult : ℚ) (duration : ℚ)
deriving DecidableEq, Repr

/-- `GameConfig.POWER_UP.HEALTH.RESTORE_AMOUNT`. -/
def HEALTH_RESTORE_AMOUNT : ℚ := 25

/-- `GameConfig.POWER_UP.SPEED_BOOST.SPEED_MULT`. -/
def SPEED_BOOST_MULT : ℚ := 1.5

/-- `GameConfig.POWER_UP.SPEED_BOOST.DURATION`. -/
def SPEED_BOOST_DURATION : ℚ := 8000

/-- `PowerUp.collect`: return immediately if no longer active, otherwise
clear the active flag first and then apply the type's effect to the
player (reified as the returned effect list). -/
def PowerUpS.collect (pu : PowerUpS) : PowerUpS × List PUEffect :=
  if !pu.active then (pu, [])
  else
    let pu2 := { pu with active := false }
    let effects :=
      match pu.ptype with
      | some PowerUpKind.health => [PUEffect.heal HEALTH_RESTORE_AMOUNT]
      | some PowerUpKind.weapon => [PUEffect.weaponUp]
      | some PowerUpKind.speed => [PUEffect.speedBoost SPEED_BOOST_MULT SPEED_BOOST_DURATION]
      | none => []
    (pu2, effects)

/-- Coin pooled sprite state. -/
structure CoinS where
  active : Bool
  value : Int
deriving DecidableEq, Repr

/-- `Coin.collect`: return immediately if no longer active, otherwise
clear the active flag first and then emit `addCredits` with the coin's
value. -/
def CoinS.collect (c : CoinS) : CoinS × List Event :=
  if !c.active then (c, [])
  else ({ c with active := false }, [Event.addCredits c.value])

/-! ## Spawn director (`EnemySpawner.js`) -/

/-- Spawner state: the timing, pause and screen-geometry fields of
`EnemySpawner`. -/
structure Spawner where
  spawnTimer : ℚ
  spawnInterval : ℚ
  minSpawnInterval : Int
  maxSpawnInterval : Int
  shipSpacing : ℚ
  isPaused : Bool
  screenWidth : ℚ
  spawnMargin : ℚ
deriving DecidableEq, Repr

/-- A formation registry entry: relative slot positions plus the
optional variable-length bounds. -/
structure FormationCfg where
  positions : List (ℚ × ℚ)
  minShips : Option Nat
  maxShips : Option Nat
deriving DecidableEq, Repr

/-- The slot subset a spawn trip instantiates: for variable-length
formations (`minShips`/`maxShips` both present) a centered contiguous
subset of a randomly drawn size, otherwise the full template. -/
def formationSlots (config : FormationCfg) (rShips : Nat) : List (ℚ × ℚ) :=
  match config.minShips, config.maxShips with
  | some lo, some hi =>
    let shipCount := betweenNat lo hi rShips
    let startIndex := (config.positions.length - shipCount) / 2
    (config.positions.drop startIndex).take shipCount
  | _, _ => config.positions

/-- `EnemySpawner.spawnFormation`: compute each slot's world position and
create one enemy per slot whose x falls strictly within the screen
margins; out-of-bounds slots are skipped.  An unknown formation key only
logs a warning.  Returns the spawned positions. -/
def spawnFormation (s : Spawner) (cfg : Option FormationCfg) (centerX startY : ℚ)
    (rShips : Nat) : List (ℚ × ℚ) :=
  match cfg with
  | none => []
  | some config =>
    (formationSlots config rShips).filterMap (fun pos =>
      let x := centerX + pos.1 * s.shipSpacing
      let y := startY + pos.2 * s.shipSpacing
      if s.spawnMargin < x ∧ x < s.screenWidth - s.spawnMargin then some (x, y)
      else none)

/-- `EnemySpawner.update`: no spawning while paused; otherwise accumulate
the timer and, once it reaches the current interval, reset it, spawn a
formation (the randomly chosen formation and center-x are the oracle
arguments) and redraw the next interval uniformly from
`[minSpawnInterval, maxSpawnInterval]`. -/
def Spawner.update (s : Spawner) (delta : ℚ) (cfg : Option FormationCfg) (centerX : ℚ)
    (rShips rInterval : Nat) : Spawner × List (ℚ × ℚ) :=
  if s.isPaused then (s, [])
  else
    let s1 := { s with spawnTimer := s.spawnTimer + delta }
    if s1.spawnInterval ≤ s1.spawnTimer then
      let s2 := { s1 with spawnTimer := 0 }
      let spawned := spawnFormation s2 cfg centerX (-50) rShips
      let s3 := { s2 with
        spawnInterval := ((between s2.minSpawnInterval s2.maxSpawnInterval rInterval : Int) : ℚ) }
      (s3, spawned)
    else (s1, [])

/-- `EnemySpawner.pause`. -/
def Spawner.pause (s : Spawner) : Spawner :=
  { s with isPaused := true }

/-- `EnemySpawner.resume`. -/
def Spawner.resume (s : Spawner) : Spawner :=
  { s with isPaused := false }

/-- `GameConfig.FORMATIONS.v` (slot offsets only; the allowed-type list
does not enter the spawn geometry). -/
def vFormation : FormationCfg :=
  { positions := [(0, 0), (-1, 1), (1, 1), (-2, 2), (2, 2)]
    minShips := none
    maxShips := none }

/-- `GameConfig.FORMATIONS.line`: a 5-slot line with a random 3-5 ship
count drawn at spawn time. -/
def lineFormation : FormationCfg :=
  { positions := [(-2, 0), (-1, 0), (0, 0), (1, 0), (2, 0)]
    minShips := some 3
    maxShips := some 5 }

/-- An `EnemySpawner` as initialised by its constructor for a screen of
the given width: timer 0, interval 2000 ms, interval bounds 1000-3000 ms,
ship spacing 50, spawn margin 60, not paused. -/
def mkSpawner (width : ℚ) : Spawner :=
  { spawnTimer := 0
    spawnInterval := 2000
    minSpawnInterval := 1000
    maxSpawnInterval := 3000
    shipSpacing := 50
    isPaused := false
    screenWidth := width
    spawnMargin := 60 }

/-- The single effect `PowerUp.collect` applies for each power-up type. -/
def puEffectOf : PowerUpKind → PUEffect
  | PowerUpKind.health => PUEffect.heal HEALTH_RESTORE_AMOUNT
  | PowerUpKind.weapon => PUEffect.weaponUp
  | PowerUpKind.speed => PUEffect.speedBoost SPEED_BOOST_MULT SPEED_BOOST_DURATION

/-! ## Lemmas about boss damage and death -/

lemma takeDamage_of_isDying (b : Boss) (a : ℚ) (h : b.isDying = true) :
    takeDamage b a = (b, false) := by
  simp [takeDamage, h]

lemma takeDamage_died_isDying (b : Boss) (a : ℚ) (h : (takeDamage b a).2 = true) :
    (takeDamage b a).1.isDying = true := by
  by_cases hd : b.isDying = true
  · rw [takeDamage_of_isDying b a hd] at h
    exact absurd h (by simp)
  · simp only [takeDamage, hd, Bool.false_eq_true, if_false] at h ⊢
    split_ifs at h ⊢ <;> simp_all

lemma takeDamage_survived_isDying (b : Boss) (a : ℚ) (hd : b.isDying = false)
    (h : (takeDamage b a).2 = false) : (takeDamage b a).1.isDying = false := by
  simp only [takeDamage, hd, Bool.false_eq_true, if_false] at h ⊢
  split_ifs at h ⊢ <;> simp_all

lemma runTakeDamage_spec (amts : List ℚ) : ∀ b : Boss,
    (b.isDying = true → runTakeDamage b amts = (b, 0))
    ∧ (runTakeDamage b amts).2 ≤ 1
    ∧ (b.isDying = false → (runTakeDamage b amts).1.isDying = true →
        (runTakeDamage b amts).2 = 1) := by
  induction amts with
  | nil =>
    intro b
    refine ⟨fun _ => rfl, by simp [runTakeDamage], fun h1 h2 => ?_⟩
    simp only [runTakeDamage] at h2
    rw [h1] at h2
    exact absurd h2 (by simp)
  | cons a rest ih =>
    intro b
    by_cases hd : b.isDying = true
    · have hstep := takeDamage_of_isDying b a hd
      have htail := (ih b).1 hd
      refine ⟨fun _ => ?_, ?_, fun h1 _ => absurd hd (by simp [h1])⟩
      · simp [runTakeDamage, hstep, htail]
      · simp [runTakeDamage, hstep, htail]
    · have hdf : b.isDying = false := by simpa using hd
      by_cases hk : (takeDamage b a).2 = true
      · have hdying := takeDamage_died_isDying b a hk
        have htail := (ih (takeDamage b a).1).1 hdying
        refine ⟨fun h1 => absurd h1 hd, ?_, fun _ _ => ?_⟩
        · simp [runTakeDamage, hk, htail]
        · simp [runTakeDamage, hk, htail]
      · have hkf : (takeDamage b a).2 = false := by simpa using hk
        have halive := takeDamage_survived_isDying b a hdf hkf
        refine ⟨fun h1 => absurd h1 hd, ?_, fun _ h2 => ?_⟩
        · simpa [runTakeDamage, hkf] using (ih (takeDamage b a).1).2.1
        · have h2' : (runTakeDamage (takeDamage b a).1 rest).1.isDying = true := by
            simpa [runTakeDamage] using h2
          have := (ih (takeDamage b a).1).2.2 halive h2'
          simp [runTakeDamage, hkf, this]

/-- C3: once `isDying` is set, every further `takeDamage` call returns
`false` and leaves the whole boss state (health, phase, flags) unchanged;
consequently, over any sequence of `takeDamage` calls from a live boss,
the death sequence — which schedules the single `bossDefeated` emission —
is started at most once, and exactly once when the boss ends up dying,
however far below 0 the fatal hit drives health. -/
theorem dying_boss_damage_noop_and_death_fires_once
    (b bLive : Boss) (a : ℚ) (amts : List ℚ)
    (hd : b.isDying = true) (hl : bLive.isDying = false) :
    takeDamage b a = (b, false)
    ∧ (runTakeDamage bLive amts).2 ≤ 1
    ∧ ((runTakeDamage bLive amts).1.isDying = true →
        (runTakeDamage bLive amts).2 = 1) :=
  ⟨takeDamage_of_isDying b a hd, (runTakeDamage_spec amts bLive).2.1,
    (runTakeDamage_spec amts bLive).2.2 hl⟩

/-- Witness for C3 at a concrete boss: a dying megaship ignores damage,
and a fresh megaship hit for 400 then 100 starts the death sequence
exactly once. -/
theorem dying_boss_damage_noop_and_death_fires_once_witness :
    takeDamage { (mkBoss "megaship").1 with isDying := true } 5
        = ({ (mkBoss "megaship").1 with isDying := true }, false)
    ∧ (runTakeDamage (mkBoss "megaship").1 [400, 100]).2 ≤ 1
    ∧ ((runTakeDamage (mkBoss "megaship").1 [400, 100]).1.isDying = true →
        (runTakeDamage (mkBoss "megaship").1 [400, 100]).2 = 1) :=
  dying_boss_damage_noop_and_death_fires_once
    { (mkBoss "megaship").1 with isDying := true } (mkBoss "megaship").1 5 [400, 100]
    rfl rfl

/-! ## Unknown configuration keys (C8) -/

/-- C8: constructing an entity with an unknown type key never throws (the
embedded constructors are total functions): it logs a warning and
produces exactly the entity the default key would produce — `fighter`
for enemies, `megaship` for bosses. -/
theorem unknown_type_key_falls_back_to_default (tyE tyB : String)
    (hE : lookupEnemyType tyE = none) (hB : lookupBossType tyB = none) :
    mkEnemy tyE = ((mkEnemy "fighter").1,
        ["Unknown enemy type: " ++ tyE ++ ", defaulting to fighter"])
    ∧ mkBoss tyB = ((mkBoss "megaship").1,
        ["Unknown boss type: " ++ tyB ++ ", defaulting to megaship"]) := by
  have hE' : enemyTypes.find? (fun p => p.1 == tyE) = none := by
    have h2 := hE
    unfold lookupEnemyType at h2
    exact Option.map_eq_none'.mp h2
  have hB' : bossTypes.find? (fun p => p.1 == tyB) = none := by
    have h2 := hB
    unfold lookupBossType at h2
    exact Option.map_eq_none'.mp h2
  constructor
  · simp only [mkEnemy, lookupEnemyType, hE', Option.map_none', Option.isNone_none, if_true,
      Option.getD_none]
    simp [enemyTypes]
  · simp only [mkBoss, lookupBossType, hB', Option.map_none', Option.isNone_none, if_true,
      Option.getD_none]
    simp [bossTypes]

/-- Witness for C8: the unknown key "vortex" falls back to the default
enemy and boss types. -/
theorem unknown_type_key_falls_back_to_default_witness :
    mkEnemy "vortex" = ((mkEnemy "fighter").1,
        ["Unknown enemy type: " ++ "vortex" ++ ", defaulting to fighter"])
    ∧ mkBoss "vortex" = ((mkBoss "megaship").1,
        ["Unknown boss type: " ++ "vortex" ++ ", defaulting to megaship"]) :=
  unknown_type_key_falls_back_to_default "vortex" "vortex"
    (by simp [lookupEnemyType, enemyTypes]) (by simp [lookupBossType, bossTypes])

/-! ## Mine scoring (C9) -/

/-- C9: `Mine.explode` adds the mine's point value to the score
unconditionally, before the blast-range check; hence the player is
awarded the mine's points whether the explosion came from player bullets
(`Mine.takeDamage` reaching 0) or from the proximity trigger in
`Mine.preUpdate`, even when the explosion damages the player. -/
theorem mine_explosion_always_awards_points
    (m : MineS) (p : Player) (dist score amount : ℚ)
    (hact : p.active = true) (hinv : p.isInvincible = false)
    (hdist : dist < m.proximityRadius)
    (hrad : 0 ≤ m.proximityRadius) (hmult : 1 ≤ m.explosionRadiusMultiplier)
    (hdmg : 0 < m.damage) (hhp : 0 < p.health) :
    (∀ (q : Player) (d sc : ℚ), (m.explode q d sc).1 = sc + m.points)
    ∧ ((m.takeDamage amount p dist score).2.2.2 = true →
        (m.takeDamage amount p dist score).1 = score + m.points)
    ∧ (mineProximityTick m p dist score).2.2.2 = true
    ∧ (mineProximityTick m p dist score).1 = score + m.points
    ∧ (mineProximityTick m p dist score).2.1.health < p.health := by
  have hexp : ∀ (q : Player) (d sc : ℚ), (m.explode q d sc).1 = sc + m.points := by
    intro q d sc
    simp only [MineS.explode]
    split_ifs <;> rfl
  have hblast : dist < m.proximityRadius * m.explosionRadiusMultiplier :=
    lt_of_lt_of_le hdist (le_mul_of_one_le_right hrad hmult)
  have hgate : (p.active && decide (dist < m.proximityRadius)) = true := by
    simp [hact, hdist]
  have hprox : mineProximityTick m p dist score =
      ((m.explode p dist score).1, (m.explode p dist score).2.1,
        (m.explode p dist score).2.2, true) := by
    simp [mineProximityTick, hgate]
  refine ⟨hexp, fun h => ?_, ?_, ?_, ?_⟩
  · by_cases h2 : ({ m with health := m.health - amount } : MineS).health ≤ 0
    · simp only [MineS.takeDamage, if_pos h2]
      exact hexp p dist score
    · simp only [MineS.takeDamage, if_neg h2] at h
      exact absurd h (by simp)
  · rw [hprox]
  · rw [hprox]
    exact hexp p dist score
  · rw [hprox]
    have hin : (p.active && !p.isInvincible &&
        decide (dist < m.proximityRadius * m.explosionRadiusMultiplier)) = true := by
      simp [hact, hinv, hblast]
    simp only [MineS.explode, hin, if_true, Player.takeDamage]
    split_ifs <;> simp [Player.makeInvincible] <;> exact ⟨hhp, hdmg⟩

/-- Witness for C9 at the configured mine and a healthy player standing
on top of it. -/
theorem mine_explosion_always_awards_points_witness :
    ((∀ (q : Player) (d sc : ℚ), (mkMine.explode q d sc).1 = sc + mkMine.points)
    ∧ ((mkMine.takeDamage 2 { health := 100, active := true, isInvincible := false } 10 0).2.2.2 = true →
        (mkMine.takeDamage 2 { health := 100, active := true, isInvincible := false } 10 0).1
          = 0 + mkMine.points)
    ∧ (mineProximityTick mkMine { health := 100, active := true, isInvincible := false } 10 0).2.2.2 = true
    ∧ (mineProximityTick mkMine { health := 100, active := true, isInvincible := false } 10 0).1
        = 0 + mkMine.points
    ∧ (mineProximityTick mkMine { health := 100, active := true, isInvincible := false } 10 0).2.1.health
        < ({ health := 100, active := true, isInvincible := false } : Player).health) := by
  have h := mine_explosion_always_awards_points mkMine
    { health := 100, active := true, isInvincible := false } 10 0 2
    rfl rfl (by norm_num [mkMine, MINE_PROXIMITY_RADIUS])
    (by norm_num [mkMine, MINE_PROXIMITY_RADIUS])
    (by norm_num [mkMine, MINE_EXPLOSION_RADIUS_MULTIPLIER])
    (by norm_num [mkMine, MINE_DAMAGE]) (by norm_num)
  exact h

/-! ## Invincible player leaves the enemy bullet live (C10) -/

/-- C10: when the player is invincible the enemy-bullet handler returns
before touching the bullet — its active and visible flags, position and
velocity are unchanged, so a still-active bullet stays live and can hit
again after invincibility expires; a non-invincible hit consumes the
bullet (active and visible cleared). -/
theorem invincible_hit_leaves_enemy_bullet_live (p : Player) (blt : BulletS) :
    (p.isInvincible = true →
      enemyBulletHitPlayer p blt = (p, blt, [])
      ∧ (enemyBulletHitPlayer p blt).2.1.active = blt.active
      ∧ (enemyBulletHitPlayer p blt).2.1.visible = blt.visible
      ∧ (enemyBulletHitPlayer p blt).2.1.x = blt.x
      ∧ (enemyBulletHitPlayer p blt).2.1.y = blt.y
      ∧ (enemyBulletHitPlayer p blt).2.1.vx = blt.vx
      ∧ (enemyBulletHitPlayer p blt).2.1.vy = blt.vy)
    ∧ (p.isInvincible = false →
      (enemyBulletHitPlayer p blt).2.1.active = false
      ∧ (enemyBulletHitPlayer p blt).2.1.visible = false) := by
  constructor
  · intro h
    simp [enemyBulletHitPlayer, h]
  · intro h
    simp only [enemyBulletHitPlayer, h, Bool.false_eq_true, if_false]
    split_ifs <;> exact ⟨rfl, rfl⟩

/-- Witness for C10: a live bullet survives a hit on an invincible player
and is consumed by a hit on a vulnerable one. -/
theorem invincible_hit_leaves_enemy_bullet_live_witness :
    (enemyBulletHitPlayer { health := 100, active := true, isInvincible := true }
        { active := true, visible := true, x := 5, y := 6, vx := 0, vy := 200 }
      = ({ health := 100, active := true, isInvincible := true },
         { active := true, visible := true, x := 5, y := 6, vx := 0, vy := 200 }, []))
    ∧ (enemyBulletHitPlayer { health := 100, active := true, isInvincible := false }
        { active := true, visible := true, x := 5, y := 6, vx := 0, vy := 200 }).2.1.active = false :=
  ⟨((invincible_hit_leaves_enemy_bullet_live
      { health := 100, active := true, isInvincible := true }
      { active := true, visible := true, x := 5, y := 6, vx := 0, vy := 200 }).1 rfl).1,
   ((invincible_hit_leaves_enemy_bullet_live
      { health := 100, active := true, isInvincible := false }
      { active := true, visible := true, x := 5, y := 6, vx := 0, vy := 200 }).2 rfl).1⟩

/-! ## Idempotent collection (C7) -/

lemma puCollect_fst_inactive (q : PowerUpS) : q.collect.1.active = false := by
  by_cases hq : q.active = true
  · simp [PowerUpS.collect, hq]
  · simp only [Bool.not_eq_true] at hq
    simp [PowerUpS.collect, hq]

lemma puCollect_of_inactive (q : PowerUpS) (h : q.active = false) :
    q.collect = (q, []) := by
  simp [PowerUpS.collect, h]

lemma coinCollect_fst_inactive (c : CoinS) : c.collect.1.active = false := by
  by_cases hc : c.active = true
  · simp [CoinS.collect, hc]
  · simp only [Bool.not_eq_true] at hc
    simp [CoinS.collect, hc]

lemma coinCollect_of_inactive (c : CoinS) (h : c.active = false) :
    c.collect = (c, []) := by
  simp [CoinS.collect, h]

/-- C7: collecting the same power-up or coin instance twice applies its
effect exactly once — the first `collect` clears the active flag before
applying the single effect for the instance's type, and `collect` on any
already-collected (inactive) instance returns it unchanged with no
effect. -/
theorem collect_applies_effect_exactly_once
    (pu : PowerUpS) (c : CoinS) (k : PowerUpKind)
    (hpa : pu.active = true) (hpk : pu.ptype = some k) (hca : c.active = true) :
    pu.collect.1.active = false
    ∧ pu.collect.2 = [puEffectOf k]
    ∧ (∀ q : PowerUpS, q.collect.1.collect = (q.collect.1, []))
    ∧ c.collect.1.active = false
    ∧ c.collect.2 = [Event.addCredits c.value]
    ∧ (∀ d : CoinS, d.collect.1.collect = (d.collect.1, [])) := by
  refine ⟨puCollect_fst_inactive pu, ?_,
    fun q => puCollect_of_inactive _ (puCollect_fst_inactive q),
    coinCollect_fst_inactive c, by simp [CoinS.collect, hca],
    fun d => coinCollect_of_inactive _ (coinCollect_fst_inactive d)⟩
  cases k <;> simp [PowerUpS.collect, hpa, hpk, puEffectOf]

/-- Witness for C7: a freshly spawned health power-up and a coin worth 7
credits. -/
theorem collect_applies_effect_exactly_once_witness :
    ({ active := true, ptype := some PowerUpKind.health } : PowerUpS).collect.1.active = false
    ∧ ({ active := true, ptype := some PowerUpKind.health } : PowerUpS).collect.2
        = [puEffectOf PowerUpKind.health]
    ∧ (∀ q : PowerUpS, q.collect.1.collect = (q.collect.1, []))
    ∧ ({ active := true, value := 7 } : CoinS).collect.1.active = false
    ∧ ({ active := true, value := 7 } : CoinS).collect.2 = [Event.addCredits 7]
    ∧ (∀ d : CoinS, d.collect.1.collect = (d.collect.1, [])) :=
  collect_applies_effect_exactly_once
    { active := true, ptype := some PowerUpKind.health } { active := true, value := 7 }
    PowerUpKind.health rfl rfl rfl

/-! ## Boss phase monotonicity (C2) -/

lemma getCurrentPhase_congr (x y : Boss) (hh : x.health = y.health)
    (hm : x.maxHealth = y.maxHealth) (h3 : x.phase3Threshold = y.phase3Threshold)
    (h2 : x.phase2Threshold = y.phase2Threshold) :
    getCurrentPhase x = getCurrentPhase y := by
  simp only [getCurrentPhase, hh, hm, h3, h2]

lemma takeDamage_fields (b : Boss) (a : ℚ) :
    (takeDamage b a).1.maxHealth = b.maxHealth
    ∧ (takeDamage b a).1.phase2Threshold = b.phase2Threshold
    ∧ (takeDamage b a).1.phase3Threshold = b.phase3Threshold := by
  simp only [takeDamage]
  split_ifs <;> exact ⟨rfl, rfl, rfl⟩

lemma takeDamage_health_le (b : Boss) (a : ℚ) (ha : 0 ≤ a) :
    (takeDamage b a).1.health ≤ b.health := by
  simp only [takeDamage]
  split_ifs <;> simp [sub_le_self_iff, ha]

lemma takeDamage_phase_eq (b : Boss) (a : ℚ) (hd : b.isDying = false) :
    (takeDamage b a).1.currentPhase = getCurrentPhase (takeDamage b a).1 := by
  simp only [takeDamage, hd, Bool.false_eq_true, if_false]
  split_ifs with h1 h2 h3
  · exact getCurrentPhase_congr _ _ rfl rfl rfl rfl
  · exact getCurrentPhase_congr _ _ rfl rfl rfl rfl
  · rw [not_ne_iff] at h1
    exact h1.symm.trans (getCurrentPhase_congr _ _ rfl rfl rfl rfl)
  · rw [not_ne_iff] at h1
    exact h1.symm

lemma getCurrentPhase_le_of_health_le (x y : Boss) (hM : 0 < x.maxHealth)
    (hm : y.maxHealth = x.maxHealth) (h3 : y.phase3Threshold = x.phase3Threshold)
    (h2 : y.phase2Threshold = x.phase2Threshold) (hh : y.health ≤ x.health) :
    getCurrentPhase x ≤ getCurrentPhase y := by
  have hdiv : y.health / x.maxHealth ≤ x.health / x.maxHealth :=
    (div_le_div_iff_of_pos_right hM).mpr hh
  simp only [getCurrentPhase, hm, h3, h2]
  split_ifs with c1 c2 c3 c4 c5 c6 c7 c8 <;> try norm_num
  all_goals exfalso
  all_goals linarith

lemma takeDamage_phase_step (b : Boss) (a : ℚ) (hM : 0 < b.maxHealth)
    (hinv : b.currentPhase = getCurrentPhase b) (ha : 0 ≤ a) :
    b.currentPhase ≤ (takeDamage b a).1.currentPhase
    ∧ (takeDamage b a).1.currentPhase = getCurrentPhase (takeDamage b a).1
    ∧ (takeDamage b a).1.maxHealth = b.maxHealth := by
  by_cases hd : b.isDying = true
  · rw [takeDamage_of_isDying b a hd]
    exact ⟨le_refl _, hinv, rfl⟩
  · have hdf : b.isDying = false := by simpa using hd
    have hpe := takeDamage_phase_eq b a hdf
    have hfld := takeDamage_fields b a
    have hhl := takeDamage_health_le b a ha
    refine ⟨?_, hpe, hfld.1⟩
    rw [hinv, hpe]
    exact getCurrentPhase_le_of_health_le b (takeDamage b a).1 hM hfld.1 hfld.2.2 hfld.2.1 hhl

lemma runTakeDamage_phase_mono (amts : List ℚ) : ∀ b : Boss,
    0 < b.maxHealth → b.currentPhase = getCurrentPhase b → (∀ a ∈ amts, 0 ≤ a) →
    b.currentPhase ≤ (runTakeDamage b amts).1.currentPhase := by
  induction amts with
  | nil =>
    intro b _ _ _
    exact le_refl _
  | cons a rest ih =>
    intro b hM hinv hpos
    have ha : 0 ≤ a := hpos a (List.mem_cons_self a rest)
    have hstep := takeDamage_phase_step b a hM hinv ha
    have hM2 : 0 < (takeDamage b a).1.maxHealth := by
      rw [hstep.2.2]
      exact hM
    have htail := ih (takeDamage b a).1 hM2 hstep.2.1
      (fun x hx => hpos x (List.mem_cons_of_mem a hx))
    calc b.currentPhase ≤ (takeDamage b a).1.currentPhase := hstep.1
      _ ≤ (runTakeDamage (takeDamage b a).1 rest).1.currentPhase := htail
      _ = (runTakeDamage b (a :: rest)).1.currentPhase := rfl

/-- Counterexample to C2 as stated: `currentPhase` is recomputed from
health on every hit, so a `takeDamage` call with a negative amount (a
heal) reverts the phase — a megaship damaged to 50 health is in phase 3,
and a following hit of -200 puts it back in phase 1. -/
theorem boss_phase_reverts_when_health_restored :
    ((takeDamage (mkBoss "megaship").1 250).1.currentPhase = 3)
    ∧ ((takeDamage (takeDamage (mkBoss "megaship").1 250).1 (-200)).1.currentPhase = 1) := by
  norm_num [mkBoss, takeDamage, getCurrentPhase, lookupBossType, bossTypes, megashipCfg,
    BOSS_MAX_HEALTH, PHASE_2_THRESHOLD, PHASE_3_THRESHOLD]

/-- C2 (amended): along any sequence of `takeDamage` calls whose amounts
are all non-negative — i.e. as long as no call restores health — the
boss's `currentPhase` is non-decreasing; in particular once phase 3 is
reached it cannot revert while health is never restored.  (The original
claim's allowance for negative amounts is refuted by
the counterexample: such a call does revert the phase.) -/
theorem boss_phase_monotone_without_healing (b : Boss) (amts : List ℚ)
    (hM : 0 < b.maxHealth) (hinv : b.currentPhase = getCurrentPhase b)
    (hpos : ∀ a ∈ amts, 0 ≤ a) :
    b.currentPhase ≤ (runTakeDamage b amts).1.currentPhase :=
  runTakeDamage_phase_mono amts b hM hinv hpos

/-- Witness for the amended C2: a fresh megaship hit twice for 120. -/
theorem boss_phase_monotone_without_healing_witness :
    (mkBoss "megaship").1.currentPhase
      ≤ (runTakeDamage (mkBoss "megaship").1 [120, 120]).1.currentPhase :=
  boss_phase_monotone_without_healing (mkBoss "megaship").1 [120, 120]
    (by norm_num [mkBoss, lookupBossType, bossTypes, megashipCfg, BOSS_MAX_HEALTH])
    (by norm_num [mkBoss, getCurrentPhase, lookupBossType, bossTypes, megashipCfg,
      BOSS_MAX_HEALTH, PHASE_2_THRESHOLD, PHASE_3_THRESHOLD])
    (by norm_num)

/-! ## Player-facing collision handlers (C4) -/

lemma player_survived_iff (p : Player) (d : ℚ) :
    (p.takeDamage d).2 = true ↔ 0 < (p.takeDamage d).1.health := by
  simp [Player.takeDamage]

lemma player_dead_iff (p : Player) (d : ℚ) :
    (p.takeDamage d).2 = false ↔ (p.takeDamage d).1.health = 0 := by
  simp only [Player.takeDamage, decide_eq_false_iff_not, not_lt]
  constructor
  · intro h1
    exact le_antisymm h1 (le_max_left _ _)
  · intro h1
    exact le_of_eq h1

/-- Counterexample to C4 as stated: when the boss is mid-death the
boss-body handler returns before applying damage even though the player
is not invincible, so the configured collision damage is not applied. -/
theorem boss_body_handler_noop_when_boss_dying :
    bossHitPlayer { health := 100, active := true, isInvincible := false }
        { (mkBoss "megaship").1 with isDying := true }
      = ({ health := 100, active := true, isInvincible := false }, [])
    ∧ ({ health := 100, active := true, isInvincible := false } : Player).isInvincible = false
    ∧ ¬ (100 : ℚ) = max 0 (100 - BOSS_COLLISION_DAMAGE) := by
  refine ⟨?_, rfl, ?_⟩
  · simp [bossHitPlayer]
  · norm_num [BOSS_COLLISION_DAMAGE]

/-- C4 (amended): every player-facing collision handler is a no-op with
respect to the player while `isInvincible` is set (health unchanged, no
`loseLife`); when the player is vulnerable the configured damage is
applied and `loseLife` is emitted exactly when health reaches zero —
with brief invincibility granted on survival only by mine explosions and
boss body contact, not by enemy-bullet or enemy-body hits — except that
the boss-body handler is additionally a no-op while the boss is dying,
and a mine explosion damages the player only within its blast radius
(which direct contact always is). -/
theorem player_collision_handlers_invincibility_gate
    (p : Player) (blt : BulletS) (e : EnemyS) (m : MineS) (b : Boss) (dist score : ℚ) :
    (p.isInvincible = true →
      enemyBulletHitPlayer p blt = (p, blt, [])
      ∧ enemyHitPlayer p e = (p, [], false)
      ∧ mineHitPlayer p m dist score = (score, p, [])
      ∧ bossHitPlayer p b = (p, []))
    ∧ (p.isInvincible = false →
      ((enemyBulletHitPlayer p blt).1.health = max 0 (p.health - 10)
        ∧ (Event.loseLife ∈ (enemyBulletHitPlayer p blt).2.2
            ↔ (enemyBulletHitPlayer p blt).1.health = 0)
        ∧ (enemyBulletHitPlayer p blt).1.isInvincible = false)
      ∧ ((enemyHitPlayer p e).1.health = max 0 (p.health - e.damage)
        ∧ (Event.loseLife ∈ (enemyHitPlayer p e).2.1
            ↔ (enemyHitPlayer p e).1.health = 0)
        ∧ (enemyHitPlayer p e).1.isInvincible = false
        ∧ (enemyHitPlayer p e).2.2 = true)
      ∧ (p.active = true → dist < m.proximityRadius * m.explosionRadiusMultiplier →
          ((mineHitPlayer p m dist score).2.1.health = max 0 (p.health - m.damage)
          ∧ (Event.loseLife ∈ (mineHitPlayer p m dist score).2.2
              ↔ (mineHitPlayer p m dist score).2.1.health = 0)
          ∧ (0 < (mineHitPlayer p m dist score).2.1.health
              → (mineHitPlayer p m dist score).2.1.isInvincible = true)))
      ∧ (b.isDying = false →
          ((bossHitPlayer p b).1.health = max 0 (p.health - BOSS_COLLISION_DAMAGE)
          ∧ (Event.loseLife ∈ (bossHitPlayer p b).2 ↔ (bossHitPlayer p b).1.health = 0)
          ∧ (0 < (bossHitPlayer p b).1.health
              → (bossHitPlayer p b).1.isInvincible = true)))) := by
  constructor
  · intro h
    refine ⟨?_, ?_, ?_, ?_⟩ <;>
      simp [enemyBulletHitPlayer, enemyHitPlayer, mineHitPlayer, bossHitPlayer, h]
  · intro h
    refine ⟨?_, ?_, ?_, ?_⟩
    · -- enemy bullet: 10 damage, no invincibility granted
      have hb : enemyBulletHitPlayer p blt =
          ((p.takeDamage 10).1, { blt with active := false, visible := false },
            if (p.takeDamage 10).2 then [] else [Event.loseLife]) := by
        simp only [enemyBulletHitPlayer, h, Bool.false_eq_true, if_false]
        split_ifs <;> rfl
      rw [hb]
      refine ⟨rfl, ?_, h ▸ rfl⟩
      by_cases hs : (p.takeDamage 10).2 = true
      · have hpos := (player_survived_iff p 10).mp hs
        simp [hs, ne_of_gt hpos]
      · have hsf : (p.takeDamage 10).2 = false := by simpa using hs
        have h0 := (player_dead_iff p 10).mp hsf
        simp [hsf, h0]
    · -- enemy body: configured collision damage, enemy destroyed
      have hb : enemyHitPlayer p e =
          ((p.takeDamage e.damage).1,
            if (p.takeDamage e.damage).2 then ([Event.playExplosion] : List Event)
            else [Event.playExplosion, Event.loseLife], true) := by
        simp only [enemyHitPlayer, h, Bool.false_eq_true, if_false, EnemyS.getCollisionDamage]
        split_ifs <;> rfl
      rw [hb]
      refine ⟨rfl, ?_, h ▸ rfl, rfl⟩
      by_cases hs : (p.takeDamage e.damage).2 = true
      · have hpos := (player_survived_iff p e.damage).mp hs
        simp [hs, ne_of_gt hpos]
      · have hsf : (p.takeDamage e.damage).2 = false := by simpa using hs
        have h0 := (player_dead_iff p e.damage).mp hsf
        simp [hsf, h0]
    · -- mine contact within blast radius
      intro hact hdistm
      have hin : (p.active && !p.isInvincible &&
          decide (dist < m.proximityRadius * m.explosionRadiusMultiplier)) = true := by
        simp [hact, h, hdistm]
      have hb : mineHitPlayer p m dist score =
          (score + m.points,
            if (p.takeDamage m.damage).2 then (p.takeDamage m.damage).1.makeInvincible
            else (p.takeDamage m.damage).1,
            if (p.takeDamage m.damage).2 then ([Event.playExplosion] : List Event)
            else [Event.playExplosion, Event.loseLife]) := by
        simp only [mineHitPlayer, h, Bool.false_eq_true, if_false, MineS.explode]
        have hc : (p.active && !(false : Bool) &&
            decide (dist < m.proximityRadius * m.explosionRadiusMultiplier)) = true := by
          simp [hact, hdistm]
        rw [if_pos hc]
        split_ifs <;> rfl
      rw [hb]
      by_cases hs : (p.takeDamage m.damage).2 = true
      · have hpos := (player_survived_iff p m.damage).mp hs
        refine ⟨by rw [if_pos hs]; exact rfl, ?_, fun _ => by simp [hs, Player.makeInvincible]⟩
        simp [hs, Player.makeInvincible, ne_of_gt hpos]
      · have hsf : (p.takeDamage m.damage).2 = false := by simpa using hs
        have h0 := (player_dead_iff p m.damage).mp hsf
        refine ⟨by rw [if_neg (by simp [hsf])]; exact rfl, ?_, fun hcon => ?_⟩
        · simp [hsf, h0]
        · rw [if_neg (by simp [hsf])] at hcon
          exact absurd (hcon.trans_eq h0) (lt_irrefl 0)
    · -- boss body contact with a live boss
      intro hbd
      have hb : bossHitPlayer p b =
          (if (p.takeDamage BOSS_COLLISION_DAMAGE).2
              then (p.takeDamage BOSS_COLLISION_DAMAGE).1.makeInvincible
              else (p.takeDamage BOSS_COLLISION_DAMAGE).1,
            if (p.takeDamage BOSS_COLLISION_DAMAGE).2 then ([] : List Event)
            else [Event.loseLife]) := by
        simp only [bossHitPlayer, h, hbd, Bool.false_eq_true, if_false]
        split_ifs <;> rfl
      rw [hb]
      by_cases hs : (p.takeDamage BOSS_COLLISION_DAMAGE).2 = true
      · have hpos := (player_survived_iff p BOSS_COLLISION_DAMAGE).mp hs
        refine ⟨by rw [if_pos hs]; exact rfl, ?_,
          fun _ => by simp [hs, Player.makeInvincible]⟩
        simp [hs, Player.makeInvincible, ne_of_gt hpos]
      · have hsf : (p.takeDamage BOSS_COLLISION_DAMAGE).2 = false := by simpa using hs
        have h0 := (player_dead_iff p BOSS_COLLISION_DAMAGE).mp hsf
        refine ⟨by rw [if_neg (by simp [hsf])]; exact rfl, ?_, fun hcon => ?_⟩
        · simp [hsf, h0]
        · rw [if_neg (by simp [hsf])] at hcon
          exact absurd (hcon.trans_eq h0) (lt_irrefl 0)

/-- Witness for the amended C4: an invincible and a vulnerable player hit
by each handler at the configured mine and a live megaship. -/
theorem player_collision_handlers_invincibility_gate_witness :
    (enemyBulletHitPlayer { health := 100, active := true, isInvincible := true }
        { active := true, visible := true, x := 0, y := 0, vx := 0, vy := 200 }
      = ({ health := 100, active := true, isInvincible := true },
         { active := true, visible := true, x := 0, y := 0, vx := 0, vy := 200 }, []))
    ∧ ((enemyBulletHitPlayer { health := 100, active := true, isInvincible := false }
        { active := true, visible := true, x := 0, y := 0, vx := 0, vy := 200 }).1.health
      = max 0 ((100 : ℚ) - 10)) := by
  have h1 := (player_collision_handlers_invincibility_gate
    { health := 100, active := true, isInvincible := true }
    { active := true, visible := true, x := 0, y := 0, vx := 0, vy := 200 }
    (mkEnemy "fighter").1 mkMine (mkBoss "megaship").1 10 0).1 rfl
  have h2 := (player_collision_handlers_invincibility_gate
    { health := 100, active := true, isInvincible := false }
    { active := true, visible := true, x := 0, y := 0, vx := 0, vy := 200 }
    (mkEnemy "fighter").1 mkMine (mkBoss "megaship").1 10 0).2 rfl
  exact ⟨h1.1, h2.1.1⟩

/-! ## Kill rewards (C5) -/

lemma between_mem (lo hi : Int) (r : Nat) (h : lo ≤ hi) :
    lo ≤ between lo hi r ∧ between lo hi r ≤ hi := by
  have hn : 0 < (hi - lo + 1).toNat := by omega
  have hmod : r % (hi - lo + 1).toNat < (hi - lo + 1).toNat := Nat.mod_lt r hn
  unfold between
  generalize hk : r % (hi - lo + 1).toNat = k at hmod ⊢
  omega

/-- C5: a player bullet hitting a health-1 enemy deactivates the bullet,
drops the enemy's health to exactly 0, emits exactly one `addScore`
event carrying the enemy's point value and exactly one `enemyKilled`
event, and spawns one coin whose value lies in the configured credit
range; a hit that does not kill (health > 1) emits none of these and
spawns nothing. -/
theorem bullet_kill_emits_score_kill_and_loot
    (blt : BulletS) (e : EnemyS) (l : Loot) (cr : CreditRange)
    (rCoin : Nat) (rDrop roll : ℚ) (puPoolOk : Bool) (fallbackPick : String)
    (hhp : e.health = 1) (hl : e.loot = some l) (hcr : l.credits = some cr)
    (hrange : cr.lo ≤ cr.hi)
    (e2 : EnemyS) (hhp2 : 1 < e2.health) :
    (bulletHitEnemy blt e rCoin true rDrop puPoolOk roll fallbackPick).bullet.active = false
    ∧ (bulletHitEnemy blt e rCoin true rDrop puPoolOk roll fallbackPick).bullet.visible = false
    ∧ (bulletHitEnemy blt e rCoin true rDrop puPoolOk roll fallbackPick).enemy.health = 0
    ∧ (bulletHitEnemy blt e rCoin true rDrop puPoolOk roll fallbackPick).killed = true
    ∧ (bulletHitEnemy blt e rCoin true rDrop puPoolOk roll fallbackPick).events.count
        (Event.addScore e.points) = 1
    ∧ (bulletHitEnemy blt e rCoin true rDrop puPoolOk roll fallbackPick).events.count
        Event.enemyKilled = 1
    ∧ (∃ v : Int,
        (bulletHitEnemy blt e rCoin true rDrop puPoolOk roll fallbackPick).coin = some v
        ∧ cr.lo ≤ v ∧ v ≤ cr.hi)
    ∧ (bulletHitEnemy blt e2 rCoin true rDrop puPoolOk roll fallbackPick).killed = false
    ∧ (bulletHitEnemy blt e2 rCoin true rDrop puPoolOk roll fallbackPick).events
        = [Event.playExplosion]
    ∧ (bulletHitEnemy blt e2 rCoin true rDrop puPoolOk roll fallbackPick).coin = none := by
  have hkill : e.takeDamage 1 = ({ e with health := e.health - 1 }, true) := by
    rw [EnemyS.takeDamage, if_pos (by rw [hhp]; norm_num : ({ e with health := e.health - 1 } : EnemyS).health ≤ 0)]
  have hout : bulletHitEnemy blt e rCoin true rDrop puPoolOk roll fallbackPick =
      { bullet := { blt with active := false, visible := false }
        enemy := { e with health := e.health - 1 }
        killed := true
        events := [Event.playExplosion, Event.addScore e.points, Event.enemyKilled]
        coin := some (between cr.lo cr.hi rCoin)
        powerUp := trySpawnPowerUp (some l) rDrop puPoolOk roll fallbackPick } := by
    simp only [bulletHitEnemy, hkill]
    simp [EnemyS.getLoot, hl, hcr, spawnCoins]
  have hnk : e2.takeDamage 1 = ({ e2 with health := e2.health - 1 }, false) := by
    rw [EnemyS.takeDamage,
      if_neg (by show ¬ ({ e2 with health := e2.health - 1 } : EnemyS).health ≤ 0
                 show ¬ (e2.health - 1 ≤ 0)
                 linarith)]
  have hout2 : bulletHitEnemy blt e2 rCoin true rDrop puPoolOk roll fallbackPick =
      { bullet := { blt with active := false, visible := false }
        enemy := { e2 with health := e2.health - 1 }
        killed := false
        events := [Event.playExplosion]
        coin := none
        powerUp := none } := by
    simp only [bulletHitEnemy, hnk]
    simp
  rw [hout, hout2]
  refine ⟨rfl, rfl, by rw [hhp]; norm_num, rfl, ?_, ?_,
    ⟨between cr.lo cr.hi rCoin, rfl, (between_mem cr.lo cr.hi rCoin hrange).1,
      (between_mem cr.lo cr.hi rCoin hrange).2⟩, rfl, rfl, rfl⟩
  · simp [List.count_cons]
  · simp [List.count_cons]

/-- Witness for C5 at the configured fighter (health 1, 100 points,
credits 5-15) and a heavy (health 3). -/
theorem bullet_kill_emits_score_kill_and_loot_witness :
    (bulletHitEnemy { active := true, visible := true, x := 0, y := 0, vx := 0, vy := -500 }
        (mkEnemy "fighter").1 4 true 1 true (0.5) "health").killed = true
    ∧ (∃ v : Int,
        (bulletHitEnemy { active := true, visible := true, x := 0, y := 0, vx := 0, vy := -500 }
          (mkEnemy "fighter").1 4 true 1 true (0.5) "health").coin = some v
        ∧ (5 : Int) ≤ v ∧ v ≤ 15)
    ∧ (bulletHitEnemy { active := true, visible := true, x := 0, y := 0, vx := 0, vy := -500 }
        (mkEnemy "heavy").1 4 true 1 true (0.5) "health").killed = false := by
  have h := bullet_kill_emits_score_kill_and_loot
    { active := true, visible := true, x := 0, y := 0, vx := 0, vy := -500 }
    (mkEnemy "fighter").1
    { credits := some { lo := 5, hi := 15 }
      dropTable := [{ item := "health", chance := 0.6 },
                    { item := "weapon", chance := 0.3 },
                    { item := "speed", chance := 0.1 }] }
    { lo := 5, hi := 15 } 4 1 (0.5) true "health"
    (by simp [mkEnemy, lookupEnemyType, enemyTypes, fighterCfg])
    (by simp [mkEnemy, lookupEnemyType, enemyTypes, fighterCfg])
    rfl (by decide)
    (mkEnemy "heavy").1
    (by simp [mkEnemy, lookupEnemyType, enemyTypes, heavyCfg])
  exact ⟨h.2.2.2.1, h.2.2.2.2.2.2.1, h.2.2.2.2.2.2.2.1⟩

/-! ## Spawn director (C6) -/

lemma filterMap_guard {α β : Type} (l : List α) (c : α → Prop) [DecidablePred c]
    (g : α → β) :
    l.filterMap (fun x => if c x then some (g x) else none)
      = (l.filter (fun x => decide (c x))).map g := by
  induction l with
  | nil => rfl
  | cons x xs ih =>
    by_cases hx : c x
    · simp [List.filterMap_cons, List.filter_cons, hx, ih]
    · simp [List.filterMap_cons, List.filter_cons, hx, ih]

/-- C6: on a spawn trip (not paused, accumulated timer reaching the
current interval) the spawner instantiates exactly one enemy per
formation slot whose x position lies strictly within the screen margins
(out-of-bounds slots are skipped), resets the timer, and redraws the
next interval from `[minSpawnInterval, maxSpawnInterval]`; while paused
`update` is a no-op, a non-trip tick only accumulates the timer, and
`pause`/`resume` flip the gate without touching the accumulated timer. -/
theorem spawn_director_trip_behavior (s : Spawner) (delta : ℚ) (config : FormationCfg)
    (centerX : ℚ) (rShips rInterval : Nat)
    (hbounds : s.minSpawnInterval ≤ s.maxSpawnInterval) :
    (s.isPaused = true →
      s.update delta (some config) centerX rShips rInterval = (s, []))
    ∧ (s.isPaused = false → s.spawnInterval ≤ s.spawnTimer + delta →
        (s.update delta (some config) centerX rShips rInterval).2
          = ((formationSlots config rShips).filter (fun pos =>
              decide (s.spawnMargin < centerX + pos.1 * s.shipSpacing
                ∧ centerX + pos.1 * s.shipSpacing < s.screenWidth - s.spawnMargin))).map
              (fun pos => (centerX + pos.1 * s.shipSpacing, -50 + pos.2 * s.shipSpacing))
        ∧ (s.update delta (some config) centerX rShips rInterval).1.spawnTimer = 0
        ∧ (s.minSpawnInterval : ℚ)
            ≤ (s.update delta (some config) centerX rShips rInterval).1.spawnInterval
        ∧ (s.update delta (some config) centerX rShips rInterval).1.spawnInterval
            ≤ (s.maxSpawnInterval : ℚ))
    ∧ (s.isPaused = false → s.spawnTimer + delta < s.spawnInterval →
        s.update delta (some config) centerX rShips rInterval
          = ({ s with spawnTimer := s.spawnTimer + delta }, []))
    ∧ s.pause.spawnTimer = s.spawnTimer
    ∧ s.resume.spawnTimer = s.spawnTimer
    ∧ s.pause.isPaused = true
    ∧ s.resume.isPaused = false := by
  refine ⟨?_, ?_, ?_, rfl, rfl, rfl, rfl⟩
  · intro h
    simp [Spawner.update, h]
  · intro h htrip
    have hup : s.update delta (some config) centerX rShips rInterval =
        ({ s with
            spawnTimer := 0
            spawnInterval :=
              ((between s.minSpawnInterval s.maxSpawnInterval rInterval : Int) : ℚ) },
          spawnFormation { s with spawnTimer := 0 } (some config) centerX (-50) rShips) := by
      simp only [Spawner.update, h, Bool.false_eq_true, if_false]
      split_ifs
      rfl
    rw [hup]
    refine ⟨?_, rfl, ?_, ?_⟩
    · show spawnFormation { s with spawnTimer := 0 } (some config) centerX (-50) rShips = _
      simp only [spawnFormation]
      exact filterMap_guard (formationSlots config rShips) _ _
    · show (s.minSpawnInterval : ℚ)
          ≤ ((between s.minSpawnInterval s.maxSpawnInterval rInterval : Int) : ℚ)
      exact_mod_cast (between_mem s.minSpawnInterval s.maxSpawnInterval rInterval hbounds).1
    · show ((between s.minSpawnInterval s.maxSpawnInterval rInterval : Int) : ℚ)
          ≤ (s.maxSpawnInterval : ℚ)
      exact_mod_cast (between_mem s.minSpawnInterval s.maxSpawnInterval rInterval hbounds).2
  · intro h hno
    simp only [Spawner.update, h, Bool.false_eq_true, if_false]
    split_ifs with hcond
    · exact absurd hcond (not_le.mpr hno)
    · rfl

/-- Witness for C6: the constructor-initialised spawner on an 800-pixel
screen, a V formation centered at x = 100, and a 2500 ms frame delta. -/
theorem spawn_director_trip_behavior_witness :
    ((mkSpawner 800).update 2500 (some vFormation) 100 0 0).1.spawnTimer = 0
    ∧ (1000 : ℚ) ≤ ((mkSpawner 800).update 2500 (some vFormation) 100 0 0).1.spawnInterval
    ∧ (mkSpawner 800).pause.spawnTimer = (mkSpawner 800).spawnTimer := by
  have h := spawn_director_trip_behavior (mkSpawner 800) 2500 vFormation 100 0 0
    (by decide)
  have htrip := h.2.1 rfl (by norm_num [mkSpawner])
  exact ⟨htrip.2.1, htrip.2.2.1, h.2.2.2.1⟩

/-! ## Attack selection priority (C1) -/

lemma lastTimeOf_executeAttack (b : Boss) (a fired : Attack) (pa : Bool) :
    lastTimeOf (executeAttack b fired pa) a = lastTimeOf b a := by
  cases fired <;> cases pa <;> cases a <;> rfl

lemma attackReady_spray (b : Boss) (t : ℚ) :
    attackReady b t Attack.spray
      = (hasAttack b Attack.spray &&
          decide (b.sprayCooldown * (if b.currentPhase = 3 then b.phase3SpeedMult else 1)
            ≤ t - b.lastSprayTime)) := by
  simp only [attackReady, cooldownOf, lastTimeOf, Bool.and_true]

lemma attackReady_aimed (b : Boss) (t : ℚ) :
    attackReady b t Attack.aimed
      = (hasAttack b Attack.aimed &&
          decide (b.aimedCooldown * (if b.currentPhase = 3 then b.phase3SpeedMult else 1)
            ≤ t - b.lastAimedTime)) := by
  simp only [attackReady, cooldownOf, lastTimeOf, Bool.and_true]

lemma attackReady_summon (b : Boss) (t : ℚ) :
    attackReady b t Attack.summon
      = (decide (2 ≤ b.currentPhase) && hasAttack b Attack.summon &&
          decide (b.summonCooldown * (if b.currentPhase = 3 then b.phase3SpeedMult else 1)
            ≤ t - b.lastSummonTime)) := by
  simp only [attackReady, cooldownOf, lastTimeOf]
  cases h1 : hasAttack b Attack.summon <;>
    cases h2 : decide (2 ≤ b.currentPhase) <;>
      simp [h1, h2]

lemma attackReady_ring (b : Boss) (t : ℚ) :
    attackReady b t Attack.ring
      = (hasAttack b Attack.ring &&
          decide (b.ringCooldown * (if b.currentPhase = 3 then b.phase3SpeedMult else 1)
            ≤ t - b.lastRingTime)) := by
  simp only [attackReady, cooldownOf, lastTimeOf, Bool.and_true]

/-- C1: whenever the boss has a bullet group and is not mid-attack, the
tick's attack selection returns the first ready attack — ready meaning:
listed in the current phase's attack list, phase ≥ 2 for summon, and
individual cooldown (scaled by the phase-3 speed multiplier in phase 3)
elapsed — scanned in the fixed priority order spray, aimed, summon,
ring; the fired attack's last-fired timestamp is set to the tick time
while all other timestamps are untouched, and when no attack is ready
the boss state is unchanged.  At most one attack fires per tick by
construction (the selection is a single `Option`). -/
theorem attack_selection_follows_priority (b : Boss) (t : ℚ) (playerActive : Bool)
    (hbg : b.bulletGroup = true) (hatt : b.isAttacking = false) :
    (updateAttacks b t playerActive).2 = specAttackSelection b t
    ∧ (∀ a : Attack, (updateAttacks b t playerActive).2 = some a →
        lastTimeOf (updateAttacks b t playerActive).1 a = t
        ∧ ∀ a2 : Attack, a2 ≠ a →
            lastTimeOf (updateAttacks b t playerActive).1 a2 = lastTimeOf b a2)
    ∧ ((updateAttacks b t playerActive).2 = none →
        (updateAttacks b t playerActive).1 = b) := by
  have gate : (!b.bulletGroup || b.isAttacking) = false := by
    rw [hbg, hatt]
    rfl
  have hud : updateAttacks b t playerActive =
      (if hasAttack b Attack.spray &&
          decide (b.sprayCooldown * (if b.currentPhase = 3 then b.phase3SpeedMult else 1)
            ≤ t - b.lastSprayTime) then
        ({ executeAttack b Attack.spray playerActive with lastSprayTime := t },
          some Attack.spray)
      else if hasAttack b Attack.aimed &&
          decide (b.aimedCooldown * (if b.currentPhase = 3 then b.phase3SpeedMult else 1)
            ≤ t - b.lastAimedTime) then
        ({ executeAttack b Attack.aimed playerActive with lastAimedTime := t },
          some Attack.aimed)
      else if decide (2 ≤ b.currentPhase) && hasAttack b Attack.summon &&
          decide (b.summonCooldown * (if b.currentPhase = 3 then b.phase3SpeedMult else 1)
            ≤ t - b.lastSummonTime) then
        ({ executeAttack b Attack.summon playerActive with lastSummonTime := t },
          some Attack.summon)
      else if hasAttack b Attack.ring &&
          decide (b.ringCooldown * (if b.currentPhase = 3 then b.phase3SpeedMult else 1)
            ≤ t - b.lastRingTime) then
        ({ executeAttack b Attack.ring playerActive with lastRingTime := t },
          some Attack.ring)
      else (b, none)) := by
    simp only [updateAttacks, gate, Bool.false_eq_true, if_false]
  rw [hud]
  cases h1 : (hasAttack b Attack.spray &&
      decide (b.sprayCooldown * (if b.currentPhase = 3 then b.phase3SpeedMult else 1)
        ≤ t - b.lastSprayTime)) with
  | true =>
    rw [if_pos rfl]
    refine ⟨?_, ?_, ?_⟩
    · simp only [specAttackSelection, priorityOrder, List.find?, attackReady_spray, h1]
    · intro a ha
      injection ha with ha2
      subst ha2
      refine ⟨rfl, ?_⟩
      intro a2 hne
      cases a2 with
      | spray => exact absurd rfl hne
      | aimed => exact lastTimeOf_executeAttack b Attack.aimed Attack.spray playerActive
      | summon => exact lastTimeOf_executeAttack b Attack.summon Attack.spray playerActive
      | ring => exact lastTimeOf_executeAttack b Attack.ring Attack.spray playerActive
    · intro hnone
      exact Option.noConfusion hnone
  | false =>
    rw [if_neg Bool.false_ne_true]
    cases h2 : (hasAttack b Attack.aimed &&
        decide (b.aimedCooldown * (if b.currentPhase = 3 then b.phase3SpeedMult else 1)
          ≤ t - b.lastAimedTime)) with
    | true =>
      rw [if_pos rfl]
      refine ⟨?_, ?_, ?_⟩
      · simp only [specAttackSelection, priorityOrder, List.find?, attackReady_spray,
          attackReady_aimed, h1, h2]
      · intro a ha
        injection ha with ha2
        subst ha2
        refine ⟨rfl, ?_⟩
        intro a2 hne
        cases a2 with
        | spray => exact lastTimeOf_executeAttack b Attack.spray Attack.aimed playerActive
        | aimed => exact absurd rfl hne
        | summon => exact lastTimeOf_executeAttack b Attack.summon Attack.aimed playerActive
        | ring => exact lastTimeOf_executeAttack b Attack.ring Attack.aimed playerActive
      · intro hnone
        exact Option.noConfusion hnone
    | false =>
      rw [if_neg Bool.false_ne_true]
      cases h3 : (decide (2 ≤ b.currentPhase) && hasAttack b Attack.summon &&
          decide (b.summonCooldown * (if b.currentPhase = 3 then b.phase3SpeedMult else 1)
            ≤ t - b.lastSummonTime)) with
      | true =>
        rw [if_pos rfl]
        refine ⟨?_, ?_, ?_⟩
        · simp only [specAttackSelection, priorityOrder, List.find?, attackReady_spray,
            attackReady_aimed, attackReady_summon, h1, h2, h3]
        · intro a ha
          injection ha with ha2
          subst ha2
          refine ⟨rfl, ?_⟩
          intro a2 hne
          cases a2 with
          | spray => exact lastTimeOf_executeAttack b Attack.spray Attack.summon playerActive
          | aimed => exact lastTimeOf_executeAttack b Attack.aimed Attack.summon playerActive
          | summon => exact absurd rfl hne
          | ring => exact lastTimeOf_executeAttack b Attack.ring Attack.summon playerActive
        · intro hnone
          exact Option.noConfusion hnone
      | false =>
        rw [if_neg Bool.false_ne_true]
        cases h4 : (hasAttack b Attack.ring &&
            decide (b.ringCooldown * (if b.currentPhase = 3 then b.phase3SpeedMult else 1)
              ≤ t - b.lastRingTime)) with
        | true =>
          rw [if_pos rfl]
          refine ⟨?_, ?_, ?_⟩
          · simp only [specAttackSelection, priorityOrder, List.find?, attackReady_spray,
              attackReady_aimed, attackReady_summon, attackReady_ring, h1, h2, h3, h4]
          · intro a ha
            injection ha with ha2
            subst ha2
            refine ⟨rfl, ?_⟩
            intro a2 hne
            cases a2 with
            | spray => exact lastTimeOf_executeAttack b Attack.spray Attack.ring playerActive
            | aimed => exact lastTimeOf_executeAttack b Attack.aimed Attack.ring playerActive
            | summon => exact lastTimeOf_executeAttack b Attack.summon Attack.ring playerActive
            | ring => exact absurd rfl hne
          · intro hnone
            exact Option.noConfusion hnone
        | false =>
          rw [if_neg Bool.false_ne_true]
          refine ⟨?_, ?_, fun _ => rfl⟩
          · simp only [specAttackSelection, priorityOrder, List.find?, attackReady_spray,
              attackReady_aimed, attackReady_summon, attackReady_ring, h1, h2, h3, h4]
          · intro a ha
            exact Option.noConfusion ha

/-- Witness for C1: a fresh megaship with a bullet group at tick time
2500 ms fires its spray attack (cooldown 2000 ms elapsed) and stamps
`lastSprayTime`. -/
theorem attack_selection_follows_priority_witness :
    (updateAttacks { (mkBoss "megaship").1 with bulletGroup := true } 2500 true).2
        = specAttackSelection { (mkBoss "megaship").1 with bulletGroup := true } 2500
    ∧ lastTimeOf
        (updateAttacks { (mkBoss "megaship").1 with bulletGroup := true } 2500 true).1
        Attack.spray = 2500 := by
  have h := attack_selection_follows_priority
    { (mkBoss "megaship").1 with bulletGroup := true } 2500 true rfl rfl
  refine ⟨h.1, (h.2.1 Attack.spray ?_).1⟩
  rw [h.1]
  norm_num [specAttackSelection, priorityOrder, List.find?, attackReady, hasAttack,
    cooldownOf, lastTimeOf, mkBoss, lookupBossType, bossTypes, megashipCfg,
    SPRAY_COOLDOWN, PHASE_3_SPEED_MULT]

end SpaceGame
